import Mathlib

/-
Verification of the keepr repair-request front end.

The definitions below are a shallow embedding of the TypeScript source:
the zod form schema of NewRepairRequest.tsx, the auth modal step
controller and post-auth redirect decision of AuthModal.tsx, the login
form submit handler of LoginForm.tsx, the repair-request submission
handler, and the image attachment handlers.  Remote calls (auth session,
row inserts) are modelled by explicit result environments, and side
effects (inserts, toasts, navigation, session-storage writes) by effect
traces that the handlers produce.
-/

set_option maxHeartbeats 1000000

namespace Keepr

/-- Variant field of a toast notification. -/
inductive ToastVariant where
  | default
  | destructive
deriving DecidableEq

/-- A toast notification: title, description and variant. -/
structure Toast where
  title : String
  description : String
  variant : ToastVariant
deriving DecidableEq

/-- The nine device-type enum literals of the form schema in NewRepairRequest.tsx
(`deviceTypes` and the z.enum list coincide in the source). -/
def deviceTypes : List String :=
  ["Vacuum cleaner", "Coffee machine", "TV", "Radio", "Lighting",
   "Fume hood", "Laptop", "Smartphone", "Other"]

/-- Device-type validator: z.enum over the nine literals accepts exactly
membership in that list. -/
def validDeviceType (value : String) : Bool :=
  deviceTypes.contains value

/-- Description validator: z.string().min(20).max(500), both bounds inclusive. -/
def validDescription (s : String) : Bool :=
  decide (20 ≤ s.length) && decide (s.length ≤ 500)

/-- C7: the description validator accepts a string iff its length lies in
the inclusive interval [20, 500]; in particular lengths 19 and 501 are
rejected. -/
theorem validDescription_iff (s : String) :
    validDescription s = true ↔ (20 ≤ s.length ∧ s.length ≤ 500) := by
  simp [validDescription]

/-- C8: the device-type validator accepts a string iff it is one of the
nine fixed enum literals. -/
theorem validDeviceType_iff (s : String) :
    validDeviceType s = true ↔
      (s = "Vacuum cleaner" ∨ s = "Coffee machine" ∨ s = "TV" ∨ s = "Radio" ∨
       s = "Lighting" ∨ s = "Fume hood" ∨ s = "Laptop" ∨ s = "Smartphone" ∨
       s = "Other") := by
  simp only [validDeviceType, deviceTypes, List.contains, List.elem_eq_mem,
    decide_eq_true_eq, List.mem_cons, List.mem_singleton, List.not_mem_nil, or_false]

/-- Row inserted into the products table by NewRepairRequest.onSubmit. -/
structure ProductRow where
  user_id : String
  type : String
  brand : Option String
  model : Option String
  status : String
deriving DecidableEq

/-- Row inserted into the repair_requests table by NewRepairRequest.onSubmit. -/
structure RepairRow where
  user_id : String
  product_id : String
  description : String
  status : String
deriving DecidableEq

/-- Observable side effects produced by the submit handlers.  `navigate` is a
react-router navigation; `hardRedirect` is an assignment to window.location.href. -/
inductive Effect where
  | toast (t : Toast)
  | closeModal
  | navigate (route : String)
  | hardRedirect (route : String)
  | setSubmitting (b : Bool)
  | insertProduct (row : ProductRow)
  | insertRepair (row : RepairRow)
  | setSessionItem (key value : String)
deriving DecidableEq

/-- Values of the validated NewRepairRequest form.  brand and model default
to the empty string in the form. -/
structure FormValues where
  deviceType : String
  brand : String
  model : String
  description : String
deriving DecidableEq

/-- JavaScript `s || null` on a string: the empty string is falsy and maps
to null. -/
def orNull (s : String) : Option String :=
  if s = "" then none else some s

/-- Results of the remote calls made by NewRepairRequest.onSubmit: the
getUser call, the products insert (returning product_id or an error
message) and the repair_requests insert (returning repair_id or an error). -/
structure SubmitEnv where
  user : Option String
  productResult : Except String String
  repairResult : Except String String

/-- Product row built at NewRepairRequest.tsx lines 166-176. -/
def productRowOf (uid : String) (v : FormValues) : ProductRow :=
  ⟨uid, v.deviceType, orNull v.brand, orNull v.model, "broken"⟩

/-- Repair-request row built at NewRepairRequest.tsx lines 184-193. -/
def repairRowOf (uid pid : String) (v : FormValues) : RepairRow :=
  ⟨uid, pid, v.description, "created"⟩

/-- Effect trace of NewRepairRequest.onSubmit.  Mirrors the source: set
submitting, check the user, insert the product, on success insert the
repair request, store its id in session storage, toast and navigate; the
two throw sites are caught by the surrounding catch which toasts the
Error message, and the finally block resets the submitting flag. -/
def onSubmit (env : SubmitEnv) (v : FormValues) : List Effect :=
  [Effect.setSubmitting true] ++
  match env.user with
  | none =>
      [Effect.toast ⟨"Authentication required",
         "Please sign in to submit a repair request.", ToastVariant.destructive⟩,
       Effect.setSubmitting false,
       Effect.setSubmitting false]
  | some uid =>
      [Effect.insertProduct (productRowOf uid v)] ++
      match env.productResult with
      | Except.error m =>
          [Effect.toast ⟨"Submission failed",
             "Failed to create product: " ++ m, ToastVariant.destructive⟩,
           Effect.setSubmitting false]
      | Except.ok pid =>
          [Effect.insertRepair (repairRowOf uid pid v)] ++
          match env.repairResult with
          | Except.error _ =>
              [Effect.toast ⟨"Submission failed",
                 "Failed to create repair request", ToastVariant.destructive⟩,
               Effect.setSubmitting false]
          | Except.ok rid =>
              [Effect.setSessionItem "repairRequestId" rid,
               Effect.toast ⟨"Repair request created",
                 "Now let\x27s select available timeslots.", ToastVariant.default⟩,
               Effect.navigate "/repair-request-timeslots",
               Effect.setSubmitting false]

/-- State of the isSubmitting flag after a trace of effects has run,
starting from `b`. -/
def submitStateAfter (effects : List Effect) (b : Bool) : Bool :=
  effects.foldl
    (fun cur e =>
      match e with
      | Effect.setSubmitting v => v
      | _ => cur) b

/-- Steps of the auth modal controller in AuthModal.tsx. -/
inductive AuthStep where
  | login
  | register
  | verify
deriving DecidableEq

/-- The type prop of the auth modal: repair, help or login. -/
inductive ModalType where
  | repair
  | help
  | login
deriving DecidableEq

/-- Initial step of the modal: useState(type === "login" ? "login" : "register"). -/
def initialStep (t : ModalType) : AuthStep :=
  match t with
  | ModalType.login => AuthStep.login
  | _ => AuthStep.register

/-- Local state of the auth modal component. -/
structure ModalState where
  step : AuthStep
  email : String
  isOpen : Bool
deriving DecidableEq

/-- Opening the modal: the effect keyed on (isOpen, type) runs with isOpen
true and resets the step to the initial step derived from type. -/
def openModal (t : ModalType) (s : ModalState) : ModalState :=
  { s with isOpen := true, step := initialStep t }

/-- Occurrence of pat as a contiguous run inside l, on character lists. -/
def containsChars (pat l : List Char) : Bool :=
  match l with
  | [] => pat.isEmpty
  | _ :: tl => pat.isPrefixOf l || containsChars pat tl

/-- Substring containment, the semantics of String.prototype.includes. -/
def containsStr (s pat : String) : Bool :=
  containsChars pat.data s.data

/-- Leading-segment test, the semantics of String.prototype.startsWith. -/
def startsWithStr (s pre : String) : Bool :=
  pre.data.isPrefixOf s.data

/-- Guard of the post-auth redirect decision at AuthModal.tsx line 86:
currentPath.startsWith("/") && currentPath.length > 1 &&
!currentPath.includes("/dashboard"). -/
def stayOnPath (currentPath : String) : Bool :=
  startsWithStr currentPath "/" && decide (1 < currentPath.length) &&
    !(containsStr currentPath "/dashboard")

/-- Post-auth redirect decision of handleLoginSuccess and
handleVerificationSuccess: none means no assignment to
window.location.href is made. -/
def redirectDecision (t : ModalType) (currentPath : String) : Option String :=
  if stayOnPath currentPath then none
  else if t = ModalType.repair then some "/new-repair-request"
  else if t = ModalType.help then some "/repair-requests"
  else none

/-- Effect trace of AuthModal.handleLoginSuccess, given the result of
supabase.auth.getSession: an error, ok with no session, or ok with a
session. -/
def handleLoginSuccess (sessionRes : Except String (Option Unit))
    (t : ModalType) (currentPath : String) : List Effect :=
  match sessionRes with
  | Except.error _ =>
      [Effect.toast ⟨"Authentication error",
         "There was a problem with your login. Please try again.",
         ToastVariant.destructive⟩]
  | Except.ok none =>
      [Effect.toast ⟨"Login failed",
         "No session found. Please try again.", ToastVariant.destructive⟩]
  | Except.ok (some _) =>
      [Effect.toast ⟨"Login successful",
         "You have been logged in successfully.", ToastVariant.default⟩,
       Effect.closeModal] ++
      (match redirectDecision t currentPath with
       | none => []
       | some r => [Effect.hardRedirect r])

/-- Result of supabase.auth.signInWithPassword as seen by LoginForm.onSubmit:
success, an explicit error with a message, or a thrown exception. -/
inductive SignInResult where
  | ok
  | err (message : String)
  | thrown
deriving DecidableEq

/-- Effect trace of LoginForm.onSubmit.  On success it toasts, invokes the
onLoginSuccess callback (handleLoginSuccess of the modal) and then calls
navigate("/dashboard") unconditionally. -/
def loginFormOnSubmit (signInRes : SignInResult)
    (sessionRes : Except String (Option Unit))
    (t : ModalType) (currentPath : String) : List Effect :=
  [Effect.setSubmitting true] ++
  match signInRes with
  | SignInResult.err m =>
      [Effect.toast ⟨"Login failed",
         (if m = "" then "Invalid email or password. Please try again." else m),
         ToastVariant.destructive⟩,
       Effect.setSubmitting false]
  | SignInResult.thrown =>
      [Effect.toast ⟨"Login failed",
         "An unexpected error occurred. Please try again.",
         ToastVariant.destructive⟩,
       Effect.setSubmitting false]
  | SignInResult.ok =>
      [Effect.toast ⟨"Login successful", "Welcome back!", ToastVariant.default⟩,
       Effect.setSubmitting false] ++
      handleLoginSuccess sessionRes t currentPath ++
      [Effect.navigate "/dashboard"]

/-- C2: if the products insert fails, the repair_requests insert is never
attempted: no insertRepair effect appears anywhere in the trace of
onSubmit. -/
theorem product_error_blocks_repair_insert (env : SubmitEnv) (v : FormValues)
    (m : String) (h : env.productResult = Except.error m) :
    ∀ r : RepairRow, Effect.insertRepair r ∉ onSubmit env v := by
  intro r hr
  unfold onSubmit at hr
  cases hu : env.user with
  | none => rw [hu] at hr; simp at hr
  | some uid => rw [hu, h] at hr; simp at hr

/-- Witness for C2 at a concrete environment whose products insert errors. -/
theorem product_error_blocks_repair_insert_check :
    (SubmitEnv.mk (some "user-1") (Except.error "db down") (Except.ok "r-9")).productResult
        = Except.error "db down" ∧
    ∀ r : RepairRow, Effect.insertRepair r ∉
      onSubmit (SubmitEnv.mk (some "user-1") (Except.error "db down") (Except.ok "r-9"))
        (FormValues.mk "TV" "" "" "The screen stays black whenever I turn it on.") :=
  ⟨rfl,
   product_error_blocks_repair_insert
     (SubmitEnv.mk (some "user-1") (Except.error "db down") (Except.ok "r-9"))
     (FormValues.mk "TV" "" "" "The screen stays black whenever I turn it on.")
     "db down" rfl⟩

/-- C3: if no authenticated user is found, onSubmit issues no insert of
either kind, shows the destructive Authentication required toast, and
leaves the submitting flag false. -/
theorem no_user_no_writes (env : SubmitEnv) (v : FormValues)
    (h : env.user = none) :
    (∀ p : ProductRow, Effect.insertProduct p ∉ onSubmit env v) ∧
    (∀ r : RepairRow, Effect.insertRepair r ∉ onSubmit env v) ∧
    Effect.toast ⟨"Authentication required",
      "Please sign in to submit a repair request.", ToastVariant.destructive⟩
        ∈ onSubmit env v ∧
    submitStateAfter (onSubmit env v) true = false := by
  unfold onSubmit
  rw [h]
  refine ⟨?_, ?_, ?_, ?_⟩
  · intro p hp; simp at hp
  · intro r hr; simp at hr
  · simp
  · rfl

/-- Witness for C3 at a concrete environment with no user. -/
theorem no_user_no_writes_check :
    (SubmitEnv.mk none (Except.ok "p-1") (Except.ok "r-1")).user = none ∧
    ((∀ p : ProductRow, Effect.insertProduct p ∉
        onSubmit (SubmitEnv.mk none (Except.ok "p-1") (Except.ok "r-1"))
          (FormValues.mk "Radio" "" "" "It crackles loudly on every single station.")) ∧
     (∀ r : RepairRow, Effect.insertRepair r ∉
        onSubmit (SubmitEnv.mk none (Except.ok "p-1") (Except.ok "r-1"))
          (FormValues.mk "Radio" "" "" "It crackles loudly on every single station.")) ∧
     Effect.toast ⟨"Authentication required",
       "Please sign in to submit a repair request.", ToastVariant.destructive⟩
         ∈ onSubmit (SubmitEnv.mk none (Except.ok "p-1") (Except.ok "r-1"))
             (FormValues.mk "Radio" "" "" "It crackles loudly on every single station.") ∧
     submitStateAfter
       (onSubmit (SubmitEnv.mk none (Except.ok "p-1") (Except.ok "r-1"))
         (FormValues.mk "Radio" "" "" "It crackles loudly on every single station.")) true
       = false) :=
  ⟨rfl,
   no_user_no_writes (SubmitEnv.mk none (Except.ok "p-1") (Except.ok "r-1"))
     (FormValues.mk "Radio" "" "" "It crackles loudly on every single station.") rfl⟩

/-- C4: when the user is present and both inserts succeed, the session
storage key repairRequestId is set to exactly the generated repair id,
that is the only session write, the navigation target is the timeslot
page, and that is the only navigation. -/
theorem success_session_and_navigation (env : SubmitEnv) (v : FormValues)
    (uid pid rid : String) (hu : env.user = some uid)
    (hp : env.productResult = Except.ok pid)
    (hr : env.repairResult = Except.ok rid) :
    Effect.setSessionItem "repairRequestId" rid ∈ onSubmit env v ∧
    (∀ k val : String, Effect.setSessionItem k val ∈ onSubmit env v →
       k = "repairRequestId" ∧ val = rid) ∧
    Effect.navigate "/repair-request-timeslots" ∈ onSubmit env v ∧
    (∀ route : String, Effect.navigate route ∈ onSubmit env v →
       route = "/repair-request-timeslots") := by
  unfold onSubmit
  rw [hu, hp, hr]
  refine ⟨by simp, ?_, by simp, ?_⟩
  · intro k val hk
    simp at hk
    exact hk
  · intro route hroute
    simp at hroute
    exact hroute

/-- Witness for C4 at a concrete environment where both inserts succeed. -/
theorem success_session_and_navigation_check :
    Effect.setSessionItem "repairRequestId" "r-42" ∈
      onSubmit (SubmitEnv.mk (some "user-1") (Except.ok "p-7") (Except.ok "r-42"))
        (FormValues.mk "Laptop" "Framework" "13" "The keyboard no longer registers any key at all.") ∧
    Effect.navigate "/repair-request-timeslots" ∈
      onSubmit (SubmitEnv.mk (some "user-1") (Except.ok "p-7") (Except.ok "r-42"))
        (FormValues.mk "Laptop" "Framework" "13" "The keyboard no longer registers any key at all.") :=
  ⟨(success_session_and_navigation
      (SubmitEnv.mk (some "user-1") (Except.ok "p-7") (Except.ok "r-42"))
      (FormValues.mk "Laptop" "Framework" "13" "The keyboard no longer registers any key at all.")
      "user-1" "p-7" "r-42" rfl rfl rfl).1,
   (success_session_and_navigation
      (SubmitEnv.mk (some "user-1") (Except.ok "p-7") (Except.ok "r-42"))
      (FormValues.mk "Laptop" "Framework" "13" "The keyboard no longer registers any key at all.")
      "user-1" "p-7" "r-42" rfl rfl rfl).2.2.1⟩

/-- C6: a failing products insert surfaces a destructive toast whose
description carries the raw backend message (prefixed), while a failing
repair_requests insert surfaces a destructive toast with a fixed generic
description independent of the backend message. -/
theorem insert_error_toast_messages (env : SubmitEnv) (v : FormValues)
    (uid m : String) (hu : env.user = some uid) :
    (env.productResult = Except.error m →
       Effect.toast ⟨"Submission failed",
         "Failed to create product: " ++ m, ToastVariant.destructive⟩
           ∈ onSubmit env v) ∧
    (∀ pid : String, env.productResult = Except.ok pid →
       env.repairResult = Except.error m →
       Effect.toast ⟨"Submission failed",
         "Failed to create repair request", ToastVariant.destructive⟩
           ∈ onSubmit env v) := by
  constructor
  · intro hperr
    unfold onSubmit
    rw [hu, hperr]
    simp
  · intro pid hpok hrerr
    unfold onSubmit
    rw [hu, hpok, hrerr]
    simp

/-- Witness for C6 at concrete failing environments for each insert. -/
theorem insert_error_toast_messages_check :
    Effect.toast ⟨"Submission failed",
      "Failed to create product: duplicate key", ToastVariant.destructive⟩
        ∈ onSubmit (SubmitEnv.mk (some "user-1") (Except.error "duplicate key") (Except.ok "r-1"))
            (FormValues.mk "Other" "" "" "A long enough description of the malfunction.") ∧
    Effect.toast ⟨"Submission failed",
      "Failed to create repair request", ToastVariant.destructive⟩
        ∈ onSubmit (SubmitEnv.mk (some "user-1") (Except.ok "p-1") (Except.error "timeout"))
            (FormValues.mk "Other" "" "" "A long enough description of the malfunction.") :=
  ⟨(insert_error_toast_messages
      (SubmitEnv.mk (some "user-1") (Except.error "duplicate key") (Except.ok "r-1"))
      (FormValues.mk "Other" "" "" "A long enough description of the malfunction.")
      "user-1" "duplicate key" rfl).1 rfl,
   (insert_error_toast_messages
      (SubmitEnv.mk (some "user-1") (Except.ok "p-1") (Except.error "timeout"))
      (FormValues.mk "Other" "" "" "A long enough description of the malfunction.")
      "user-1" "timeout" rfl).2 "p-1" rfl rfl⟩

/-- C5: opening the modal resets the step to the initial step derived from
the type, regardless of the prior state, and the initial step is login for
type login and register for types repair and help. -/
theorem modal_open_resets_step (s : ModalState) (t : ModalType) :
    (openModal t s).step = initialStep t ∧
    initialStep ModalType.login = AuthStep.login ∧
    initialStep ModalType.repair = AuthStep.register ∧
    initialStep ModalType.help = AuthStep.register :=
  ⟨rfl, rfl, rfl, rfl⟩

/-- C1 counterexample: for path "/device/42" with purpose repair, a
successful login does navigate: LoginForm.onSubmit always emits
navigate("/dashboard") after a successful sign-in, so the claim that no
navigation at all occurs is false. -/
theorem login_on_device_path_navigates :
    Effect.navigate "/dashboard" ∈
      loginFormOnSubmit SignInResult.ok (Except.ok (some ()))
        ModalType.repair "/device/42" := by
  decide

/-- C1 amended: the redirect decision of handleLoginSuccess issues no hard
redirect when the path is non-root and free of "/dashboard", and otherwise
sends purpose repair to the new-repair-request route and purpose help to
the repair-requests listing; but the login form itself always navigates to
/dashboard after a successful sign-in, so a successful login on
"/device/42" with purpose repair still performs that navigation. -/
theorem redirect_decision_spec (t : ModalType) (path : String)
    (sessionRes : Except String (Option Unit)) :
    (stayOnPath path = true → redirectDecision t path = none) ∧
    (stayOnPath path = false →
       redirectDecision ModalType.repair path = some "/new-repair-request") ∧
    (stayOnPath path = false →
       redirectDecision ModalType.help path = some "/repair-requests") ∧
    (∀ r : String,
       Effect.hardRedirect r ∉
         handleLoginSuccess (Except.ok (some ())) ModalType.repair "/device/42") ∧
    Effect.navigate "/dashboard" ∈
      loginFormOnSubmit SignInResult.ok sessionRes t path := by
  refine ⟨?_, ?_, ?_, ?_, ?_⟩
  · intro h
    simp [redirectDecision, h]
  · intro h
    simp [redirectDecision, h]
  · intro h
    simp [redirectDecision, h]
  · intro r hr
    have hnone : redirectDecision ModalType.repair "/device/42" = none := by decide
    simp [handleLoginSuccess, hnone] at hr
  · cases sessionRes with
    | error m =>
        simp [loginFormOnSubmit, handleLoginSuccess]
    | ok o =>
        cases o with
        | none => simp [loginFormOnSubmit, handleLoginSuccess]
        | some u =>
            simp only [loginFormOnSubmit, handleLoginSuccess]
            cases redirectDecision t path with
            | none => simp
            | some r => simp

/-- Witness for the amended C1 at concrete decision-table rows. -/
theorem redirect_decision_spec_check :
    stayOnPath "/" = false ∧
    stayOnPath "/dashboard" = false ∧
    stayOnPath "/device/42" = true ∧
    redirectDecision ModalType.repair "/" = some "/new-repair-request" ∧
    redirectDecision ModalType.help "/dashboard" = some "/repair-requests" ∧
    redirectDecision ModalType.repair "/device/42" = none ∧
    Effect.navigate "/dashboard" ∈
      loginFormOnSubmit SignInResult.ok (Except.error "boom")
        ModalType.repair "/" :=
  ⟨by decide, by decide, by decide,
   (redirect_decision_spec ModalType.repair "/" (Except.error "boom")).2.1 (by decide),
   (redirect_decision_spec ModalType.help "/dashboard" (Except.error "boom")).2.2.1 (by decide),
   (redirect_decision_spec ModalType.repair "/device/42" (Except.error "boom")).1 (by decide),
   (redirect_decision_spec ModalType.repair "/" (Except.error "boom")).2.2.2.2⟩

/-- A file as seen by the attachment handler: MIME type string and size
in bytes. -/
structure JSFile where
  type : String
  size : Nat
deriving DecidableEq

/-- Source check file.type.match("image.*"): the unanchored regex matches
iff "image" occurs anywhere in the type string, since the dot-star can
match the empty remainder. -/
def matchesImagePattern (t : String) : Bool :=
  containsStr t "image"

/-- Image MIME type in the sense of the claim text: a media type whose
top-level type is image, i.e. one starting with "image/".  Stated from the
claim words for comparison with the source check matchesImagePattern. -/
def isImageMimeType (t : String) : Bool :=
  startsWithStr t "image/"

/-- Events recorded by the attachment handlers: creation of a preview
URL for a file, revocation of a preview URL, and toast notices. -/
inductive ImgEvent where
  | created (f : JSFile) (url : String)
  | revoked (url : String)
  | notice (t : Toast)
deriving DecidableEq

/-- Local state of the attachment handling: the images list, the preview
URL list, a counter modelling URL.createObjectURL freshness, and the
event trace. -/
structure ImgState where
  images : List JSFile
  urls : List String
  counter : Nat
  trace : List ImgEvent
deriving DecidableEq

/-- Preview URL returned by the n-th call to URL.createObjectURL. -/
def objectURL (n : Nat) : String :=
  "blob:" ++ toString n

/-- Toast shown for a file whose type fails the image pattern check. -/
def invalidTypeToast : Toast :=
  ⟨"Invalid file type", "Please upload only image files", ToastVariant.destructive⟩

/-- Toast shown for a file over the 5MB limit. -/
def tooLargeToast : Toast :=
  ⟨"File too large", "Please upload images smaller than 5MB", ToastVariant.destructive⟩

/-- One iteration of the loop in handleImageChange: reject a file whose
type does not match the image pattern, then reject a file over 5MB, and
otherwise append the file and a fresh preview URL to the two lists. -/
def processFile (st : ImgState) (f : JSFile) : ImgState :=
  if !matchesImagePattern f.type then
    { st with trace := st.trace ++ [ImgEvent.notice invalidTypeToast] }
  else if 5 * 1024 * 1024 < f.size then
    { st with trace := st.trace ++ [ImgEvent.notice tooLargeToast] }
  else
    { images := st.images ++ [f],
      urls := st.urls ++ [objectURL st.counter],
      counter := st.counter + 1,
      trace := st.trace ++ [ImgEvent.created f (objectURL st.counter)] }

/-- handleImageChange iterates the per-file screening over the offered
files, starting from the current state. -/
def handleImageChange (st : ImgState) (files : List JSFile) : ImgState :=
  files.foldl processFile st

/-- removeImage revokes the preview URL at the index and removes the
index from both lists, as in NewRepairRequest.tsx lines 133-145. -/
def removeImage (st : ImgState) (index : Nat) : ImgState :=
  { st with
    images := st.images.eraseIdx index,
    urls := st.urls.eraseIdx index,
    trace := st.trace ++
      (match st.urls[index]? with
       | some u => [ImgEvent.revoked u]
       | none => []) }

/-- C9 counterexample: the file type "text/image" is not an image MIME
type, yet the handler accepts the file, appends it to both lists and
shows no invalid-file-type notice, because the unanchored regex
"image.*" matches anywhere in the string. -/
theorem non_image_type_accepted :
    isImageMimeType "text/image" = false ∧
    (processFile (ImgState.mk [] [] 0 []) (JSFile.mk "text/image" 100)).images
        = [JSFile.mk "text/image" 100] ∧
    (processFile (ImgState.mk [] [] 0 []) (JSFile.mk "text/image" 100)).urls
        = [objectURL 0] ∧
    ImgEvent.notice invalidTypeToast ∉
      (processFile (ImgState.mk [] [] 0 []) (JSFile.mk "text/image" 100)).trace := by
  decide

/-- C9 amended: a file whose MIME type does not match the unanchored
pattern image.* (does not contain "image") is rejected with the
invalid-file-type notice, a matching file over 5MB is rejected with the
too-large notice, rejected files are added to neither list, and accepted
files are appended to both lists together with a fresh preview URL. -/
theorem image_file_screening (st : ImgState) (f : JSFile) :
    (matchesImagePattern f.type = false →
       (processFile st f).images = st.images ∧
       (processFile st f).urls = st.urls ∧
       (processFile st f).trace = st.trace ++ [ImgEvent.notice invalidTypeToast]) ∧
    (matchesImagePattern f.type = true → 5 * 1024 * 1024 < f.size →
       (processFile st f).images = st.images ∧
       (processFile st f).urls = st.urls ∧
       (processFile st f).trace = st.trace ++ [ImgEvent.notice tooLargeToast]) ∧
    (matchesImagePattern f.type = true → f.size ≤ 5 * 1024 * 1024 →
       (processFile st f).images = st.images ++ [f] ∧
       (processFile st f).urls = st.urls ++ [objectURL st.counter] ∧
       (processFile st f).trace = st.trace ++ [ImgEvent.created f (objectURL st.counter)]) := by
  refine ⟨?_, ?_, ?_⟩
  · intro h1
    simp [processFile, h1]
  · intro h1 h2
    simp [processFile, h1, h2]
  · intro h1 h2
    simp [processFile, h1, Nat.not_lt.mpr h2]

/-- Witness for the amended C9 on three concrete files. -/
theorem image_file_screening_check :
    (processFile (ImgState.mk [] [] 0 []) (JSFile.mk "application/pdf" 100)).images = [] ∧
    (processFile (ImgState.mk [] [] 0 [])
        (JSFile.mk "image/png" (6 * 1024 * 1024))).urls = [] ∧
    (processFile (ImgState.mk [] [] 0 [])
        (JSFile.mk "image/png" (6 * 1024 * 1024))).trace = [ImgEvent.notice tooLargeToast] ∧
    (processFile (ImgState.mk [] [] 0 []) (JSFile.mk "image/png" 2048)).images
        = [JSFile.mk "image/png" 2048] ∧
    (processFile (ImgState.mk [] [] 0 []) (JSFile.mk "image/png" 2048)).urls
        = [objectURL 0] :=
  ⟨((image_file_screening (ImgState.mk [] [] 0 [])
      (JSFile.mk "application/pdf" 100)).1 (by decide)).1,
   ((image_file_screening (ImgState.mk [] [] 0 [])
      (JSFile.mk "image/png" (6 * 1024 * 1024))).2.1 (by decide) (by decide)).2.1,
   by
     have := ((image_file_screening (ImgState.mk [] [] 0 [])
       (JSFile.mk "image/png" (6 * 1024 * 1024))).2.1 (by decide) (by decide)).2.2
     simpa using this,
   ((image_file_screening (ImgState.mk [] [] 0 [])
      (JSFile.mk "image/png" 2048)).2.2 (by decide) (by decide)).1,
   by
     have := ((image_file_screening (ImgState.mk [] [] 0 [])
       (JSFile.mk "image/png" 2048)).2.2 (by decide) (by decide)).2.1
     simpa using this⟩

/-- Correspondence invariant of the attachment state: the two lists have
equal length and the URL at each index was created for the image at the
same index. -/
def pairedInv (st : ImgState) : Prop :=
  st.images.length = st.urls.length ∧
  ∀ (i : Nat) (f : JSFile) (u : String),
    st.images[i]? = some f → st.urls[i]? = some u →
    ImgEvent.created f u ∈ st.trace

theorem pairedInv_processFile (st : ImgState) (f : JSFile)
    (h : pairedInv st) : pairedInv (processFile st f) := by
  obtain ⟨hlen, hcorr⟩ := h
  unfold processFile
  by_cases h1 : matchesImagePattern f.type
  · by_cases h2 : 5 * 1024 * 1024 < f.size
    · simp only [h1, Bool.not_true, Bool.false_eq_true, if_false, if_pos h2]
      exact ⟨hlen, fun i g u hf hu => List.mem_append_left _ (hcorr i g u hf hu)⟩
    · simp only [h1, Bool.not_true, Bool.false_eq_true, if_false, if_neg h2]
      refine ⟨by simp [hlen], ?_⟩
      intro i g u hf hu
      rcases Nat.lt_or_ge i st.images.length with hi | hi
      · rw [List.getElem?_append_left hi] at hf
        rw [List.getElem?_append_left (hlen ▸ hi)] at hu
        exact List.mem_append_left _ (hcorr i g u hf hu)
      · rw [List.getElem?_append_right hi] at hf
        rw [List.getElem?_append_right (hlen ▸ hi)] at hu
        rw [hlen] at hi
        cases hk : i - st.urls.length with
        | zero =>
            have hk2 : i - st.images.length = 0 := by rw [hlen]; exact hk
            rw [hk2] at hf
            rw [hk] at hu
            simp at hf hu
            subst hf
            subst hu
            exact List.mem_append_right _ (List.mem_singleton.mpr rfl)
        | succ k =>
            rw [hk] at hu
            simp at hu
  · simp only [h1, Bool.not_false, if_true]
    exact ⟨hlen, fun i g u hf hu => List.mem_append_left _ (hcorr i g u hf hu)⟩

theorem pairedInv_handleImageChange (files : List JSFile) (st : ImgState)
    (h : pairedInv st) : pairedInv (handleImageChange st files) := by
  induction files generalizing st with
  | nil => exact h
  | cons f fs ih =>
      show pairedInv (handleImageChange (processFile st f) fs)
      exact ih _ (pairedInv_processFile st f h)

theorem pairedInv_removeImage (st : ImgState) (i : Nat)
    (h : pairedInv st) : pairedInv (removeImage st i) := by
  obtain ⟨hlen, hcorr⟩ := h
  refine ⟨by simp [removeImage, List.length_eraseIdx, hlen], ?_⟩
  intro j g u hf hu
  simp only [removeImage] at hf hu ⊢
  rw [List.getElem?_eraseIdx] at hf hu
  by_cases hj : j < i
  · rw [if_pos hj] at hf hu
    exact List.mem_append_left _ (hcorr j g u hf hu)
  · rw [if_neg hj] at hf hu
    exact List.mem_append_left _ (hcorr (j + 1) g u hf hu)

/-- C10: adding files and removing an index both preserve the list
correspondence invariant; removal at a valid index i shortens both lists
by one, keeps entries below i, shifts entries above i down by one, and
records the revocation of exactly the removed preview URL. -/
theorem image_lists_correspondence (st : ImgState) (files : List JSFile)
    (i : Nat) (h : pairedInv st) :
    pairedInv (handleImageChange st files) ∧
    pairedInv (removeImage st i) ∧
    (i < st.images.length →
       (removeImage st i).images.length = st.images.length - 1 ∧
       (removeImage st i).urls.length = st.urls.length - 1) ∧
    (∀ j : Nat, j < i →
       (removeImage st i).images[j]? = st.images[j]? ∧
       (removeImage st i).urls[j]? = st.urls[j]?) ∧
    (∀ j : Nat, i ≤ j →
       (removeImage st i).images[j]? = st.images[j + 1]? ∧
       (removeImage st i).urls[j]? = st.urls[j + 1]?) ∧
    (∀ u : String, st.urls[i]? = some u →
       ImgEvent.revoked u ∈ (removeImage st i).trace) := by
  have hlen := h.1
  refine ⟨pairedInv_handleImageChange files st h,
          pairedInv_removeImage st i h, ?_, ?_, ?_, ?_⟩
  · intro hi
    constructor
    · simp [removeImage, List.length_eraseIdx_of_lt hi]
    · rw [hlen] at hi
      simp [removeImage, List.length_eraseIdx_of_lt hi]
  · intro j hj
    exact ⟨List.getElem?_eraseIdx_of_lt _ _ _ hj,
           List.getElem?_eraseIdx_of_lt _ _ _ hj⟩
  · intro j hj
    exact ⟨List.getElem?_eraseIdx_of_ge _ _ _ hj,
           List.getElem?_eraseIdx_of_ge _ _ _ hj⟩
  · intro u hu
    simp only [removeImage, hu]
    exact List.mem_append_right _ (List.mem_singleton.mpr rfl)

/-- Witness for C10 at a one-element state. -/
theorem image_lists_correspondence_check :
    pairedInv
      (handleImageChange
        (ImgState.mk [JSFile.mk "image/png" 100] [objectURL 0] 1
          [ImgEvent.created (JSFile.mk "image/png" 100) (objectURL 0)])
        [JSFile.mk "image/jpeg" 2048]) ∧
    (removeImage
        (ImgState.mk [JSFile.mk "image/png" 100] [objectURL 0] 1
          [ImgEvent.created (JSFile.mk "image/png" 100) (objectURL 0)]) 0).images.length = 0 ∧
    ImgEvent.revoked (objectURL 0) ∈
      (removeImage
        (ImgState.mk [JSFile.mk "image/png" 100] [objectURL 0] 1
          [ImgEvent.created (JSFile.mk "image/png" 100) (objectURL 0)]) 0).trace := by
  have h0 : pairedInv
      (ImgState.mk [JSFile.mk "image/png" 100] [objectURL 0] 1
        [ImgEvent.created (JSFile.mk "image/png" 100) (objectURL 0)]) := by
    refine ⟨rfl, ?_⟩
    intro i f u hf hu
    cases i with
    | zero =>
        simp at hf hu
        subst hf
        subst hu
        simp
    | succ k => simp at hf
  have happ := image_lists_correspondence
    (ImgState.mk [JSFile.mk "image/png" 100] [objectURL 0] 1
      [ImgEvent.created (JSFile.mk "image/png" 100) (objectURL 0)])
    [JSFile.mk "image/jpeg" 2048] 0 h0
  exact ⟨happ.1, (happ.2.2.1 (by decide)).1, happ.2.2.2.2.2 (objectURL 0) rfl⟩

end Keepr
